import Mathlib

/-!
Verification of `use-stripe-payment-request` (React hooks wrapping the Stripe
payment-request capability) against its natural-language specification.

The source is shallowly embedded: JavaScript values that are compared by
reference (`Object.is`) are modelled as `Ref α` (an identity `id` plus a
structural value `val`); JavaScript `undefined`/optional values are `Option`;
the hook's imperative effects are modelled as pure functions returning the new
state together with the list of capability calls they issue.
-/

/-- A JavaScript object value: `id` models reference identity (what `Object.is`
compares for objects), `val` the structural ("deep") content. Two `Ref`s with
equal `val` but distinct `id` model deep-equal but distinct objects. -/
structure Ref (α : Type) where
  id : Nat
  val : α
deriving DecidableEq

/-- A display line item (Stripe `PaymentRequestItem`): amount and label. -/
structure DisplayItem where
  amount : Int
  label : String
deriving DecidableEq

/-- A shipping option (Stripe `PaymentRequestShippingOption`). -/
structure ShippingOptionItem where
  id : String
  label : String
  detail : String
  amount : Int
deriving DecidableEq

/-- The total line (Stripe `PaymentRequestItem` with optional `pending`). -/
structure TotalSpec where
  amount : Int
  label : String
  pending : Option Bool
deriving DecidableEq

/-- Stripe `PaymentRequestUpdateDetailsStatus`: statuses accepted by
`event.updateWith` for shipping events. -/
inductive UpdateDetailsStatus where
  | success
  | fail
  | invalid_shipping_address
deriving DecidableEq

/-- Stripe `PaymentRequestCompleteStatus`: statuses accepted by
`event.complete` for payment events. -/
inductive CompleteStatus where
  | success
  | fail
  | invalid_payer_name
  | invalid_payer_phone
  | invalid_payer_email
  | invalid_shipping_address
deriving DecidableEq

/-- The caller's `PaymentRequestOptions` argument to `usePaymentRequest`.
Strings and booleans are JavaScript primitives (compared by value); arrays and
objects are compared by reference and so are wrapped in `Ref`. Optional fields
are `Option`. -/
structure PaymentRequestOptions where
  country : String
  currency : String
  disableWallets : Option (Ref (List String))
  displayItems : Option (Ref (List DisplayItem))
  requestPayerEmail : Option Bool
  requestPayerName : Option Bool
  requestPayerPhone : Option Bool
  requestShipping : Option Bool
  shippingOptions : Option (Ref (List ShippingOptionItem))
  total : Ref TotalSpec
deriving DecidableEq

/-- The object literal passed to `stripe.paymentRequest(...)` inside the
`useMemo` of `usePaymentRequest`. `displayItems` and `shippingOptions` are
fresh array literals there (plain lists, not caller references), and `total`
is a fresh object literal. -/
structure ConstructorOptions where
  country : String
  currency : String
  disableWallets : Option (Ref (List String))
  displayItems : List DisplayItem
  requestPayerEmail : Option Bool
  requestPayerName : Option Bool
  requestPayerPhone : Option Bool
  requestShipping : Option Bool
  shippingOptions : List ShippingOptionItem
  total : TotalSpec
deriving DecidableEq

/-- The argument object built for `stripe.paymentRequest` in the source:
identity-affecting options are forwarded from the caller, while the updatable
ones are hard-coded dummies (`currency: "usd"`, `displayItems: []`,
`shippingOptions: []`, `total: {amount: 0, label: "Total", pending: true}`). -/
def constructorArgs (o : PaymentRequestOptions) : ConstructorOptions :=
  { country := o.country
    currency := "usd"
    disableWallets := o.disableWallets
    displayItems := []
    requestPayerEmail := o.requestPayerEmail
    requestPayerName := o.requestPayerName
    requestPayerPhone := o.requestPayerPhone
    requestShipping := o.requestShipping
    shippingOptions := []
    total := { amount := 0, label := "Total", pending := some true } }

/-- Replace exactly the four updatable options (currency, displayItems,
shippingOptions, total) of a `PaymentRequestOptions`, leaving the
identity-affecting ones untouched. -/
def setUpdatables (o : PaymentRequestOptions) (c : String)
    (di : Option (Ref (List DisplayItem)))
    (so : Option (Ref (List ShippingOptionItem)))
    (t : Ref TotalSpec) : PaymentRequestOptions :=
  { o with currency := c, displayItems := di, shippingOptions := so, total := t }

/-- Result object of `paymentRequest.canMakePayment()`. Any such object is
truthy in JavaScript; absence (`undefined`, after `?? undefined`) is `none`. -/
structure CanMakePaymentResult where
  applePay : Bool
  googlePay : Bool
deriving DecidableEq

/-- The `useAsync` probe state: `loading` flag plus the optional resolved
value. -/
structure AsyncState where
  loading : Bool
  value : Option CanMakePaymentResult
deriving DecidableEq

/-- The stripe factory handle: a referenced opaque object, or absent
(`undefined`/`null`). -/
def StripeHandle : Type := Option (Ref Unit)

instance : DecidableEq StripeHandle := by
  unfold StripeHandle
  infer_instance

/-- One render's inputs to `usePaymentRequest`: the stripe factory and the
options object. -/
structure RenderInput where
  stripe : Option (Ref Unit)
  options : PaymentRequestOptions
deriving DecidableEq

/-- The locally owned state of `usePaymentRequest` as it stands on a render:
the boolean `open` cell and the probe state. -/
structure HookState where
  openState : Bool
  canMakePayment : AsyncState
deriving DecidableEq

/-- The hook state at mount: `useState(false)` makes the open cell `false`,
and the `useAsync` probe starts out loading with no value — independent of the
stripe factory, the options and the capability. -/
def mountHookState (_r : RenderInput) : HookState :=
  { openState := false, canMakePayment := { loading := true, value := none } }

/-- The `Omit<PaymentRequestUpdateDetails, "status">` options handed to the
shipping-event hooks (all three fields optional in the Stripe type). -/
structure ShippingUpdateOptions where
  displayItems : Option (Ref (List DisplayItem))
  shippingOptions : Option (Ref (List ShippingOptionItem))
  total : Option (Ref TotalSpec)
deriving DecidableEq

/-- The details object passed to `event.updateWith`: a status plus optionally
present data fields. -/
structure PaymentRequestUpdateDetails where
  status : UpdateDetailsStatus
  displayItems : Option (Ref (List DisplayItem))
  shippingOptions : Option (Ref (List ShippingOptionItem))
  total : Option (Ref TotalSpec)
deriving DecidableEq

/-- The object literal `{status, ...(status === "success" && {displayItems,
shippingOptions, total})}` built in the flush effect of
`usePaymentRequestShippingEvent`: spreading `false` adds nothing, so the data
fields are present exactly when the status is `success`. -/
def mkUpdateDetails (status : UpdateDetailsStatus) (o : ShippingUpdateOptions) :
    PaymentRequestUpdateDetails :=
  { status := status
    displayItems := if status = .success then o.displayItems else none
    shippingOptions := if status = .success then o.shippingOptions else none
    total := if status = .success then o.total else none }

/-- The two latched state cells of `usePaymentRequestShippingEvent`:
`useState` cells for the pending event and the pending status. -/
structure ShippingEventState (ε : Type) where
  event : Option ε
  status : Option UpdateDetailsStatus

/-- `getShippingCallback`: when the multiplexer resolves a status, both cells
are set (arming the deferred flush). -/
def armShipping {ε : Type} (e : ε) (s : UpdateDetailsStatus) :
    ShippingEventState ε :=
  { event := some e, status := some s }

/-- A recorded call to `event.updateWith`. -/
structure UpdateWithCall (ε : Type) where
  event : ε
  details : PaymentRequestUpdateDetails

/-- The flush `useEffect` of `usePaymentRequestShippingEvent`: if either cell
is empty it returns without doing anything; otherwise it clears both cells and
calls `event.updateWith` with the details built from the status and the
caller's current updatable options. -/
def flushEffect {ε : Type} (st : ShippingEventState ε)
    (o : ShippingUpdateOptions) :
    ShippingEventState ε × List (UpdateWithCall ε) :=
  match st.event, st.status with
  | some e, some s => (⟨none, none⟩, [⟨e, mkUpdateDetails s o⟩])
  | some e, none => (⟨some e, none⟩, [])
  | none, so => (⟨none, so⟩, [])

/-- C9: constructing the capability handle always passes fixed placeholder
updatable parameters — currency `"usd"`, empty display items, empty shipping
options and a pending zero total — and the constructor arguments do not depend
on the caller's currency, display items, shipping options or total. -/
theorem paymentRequest_constructor_placeholders
    (o : PaymentRequestOptions) (c : String)
    (di : Option (Ref (List DisplayItem)))
    (so : Option (Ref (List ShippingOptionItem))) (t : Ref TotalSpec) :
    (constructorArgs o).currency = "usd" ∧
    (constructorArgs o).displayItems = [] ∧
    (constructorArgs o).shippingOptions = [] ∧
    (constructorArgs o).total = { amount := 0, label := "Total", pending := some true } ∧
    constructorArgs (setUpdatables o c di so t) = constructorArgs o :=
  ⟨rfl, rfl, rfl, rfl, rfl⟩

/-- C10: on mount, before any `setOpen` call or `cancel` event, the exposed
open state is `false`, whatever the render inputs are. -/
theorem initial_open_state_false (r : RenderInput) :
    (mountHookState r).openState = false :=
  rfl

/-- C2: when the deferred flush fires for an armed shipping event with status
`s`, it calls the event's `updateWith` exactly once, with the caller's
displayItems, shippingOptions and total included if and only if `s` is
`success`; for any other status the details carry the status alone. -/
theorem shippingEvent_flush_payload {ε : Type} (e : ε)
    (s : UpdateDetailsStatus) (o : ShippingUpdateOptions) :
    flushEffect (armShipping e s) o =
      (⟨none, none⟩,
        [⟨e, if s = .success then
              { status := s, displayItems := o.displayItems,
                shippingOptions := o.shippingOptions, total := o.total }
            else
              { status := s, displayItems := none,
                shippingOptions := none, total := none }⟩]) := by
  cases s <;> simp [flushEffect, armShipping, mkUpdateDetails]

/-- The capability handle's observable surface as `setOpen` and the effects
use it: the synchronous `isShowing()` answer and whether the optional `abort`
method is present. -/
structure Capability where
  isShowing : Bool
  hasAbort : Bool
deriving DecidableEq

/-- The object literal `{currency, displayItems, shippingOptions, total}` that
`setOpen` passes to `paymentRequest.update` — the caller's current values. -/
structure HookUpdatePayload where
  currency : String
  displayItems : Option (Ref (List DisplayItem))
  shippingOptions : Option (Ref (List ShippingOptionItem))
  total : Ref TotalSpec
deriving DecidableEq

/-- A recorded imperative call on the capability issued by `setOpen`. -/
inductive CapCall where
  | update (details : HookUpdatePayload)
  | showCall
  | abortCall
deriving DecidableEq

/-- React's `SetStateAction<boolean>`: a literal boolean or a function of the
previous value. -/
inductive SetStateAction where
  | set (b : Bool)
  | fn (f : Bool → Bool)

/-- `isFunction(openAction) ? openAction(open) : openAction`. -/
def resolveAction : SetStateAction → Bool → Bool
  | .set b, _ => b
  | .fn f, prev => f prev

/-- `Boolean(paymentRequest?.isShowing())`: `false` when the handle is
absent. -/
def isShowingBool : Option Capability → Bool
  | none => false
  | some c => c.isShowing

/-- The `setOpen` callback of `usePaymentRequest`: computes the target
boolean; returns unchanged state and no capability calls when the probe has no
truthy value, the target equals the current open value, or the target equals
`Boolean(paymentRequest?.isShowing())`. Otherwise it sets the open cell to the
target and, when opening, calls `update` with the caller's current updatable
options followed by `show`; when closing, calls the optional `abort` alone. -/
def setOpen (openAction : SetStateAction) (openState : Bool)
    (canMakePaymentValue : Option CanMakePaymentResult)
    (paymentRequest : Option Capability) (o : PaymentRequestOptions) :
    Bool × List CapCall :=
  let newOpen := resolveAction openAction openState
  if canMakePaymentValue = none ∨ newOpen = openState ∨
      newOpen = isShowingBool paymentRequest then
    (openState, [])
  else if newOpen then
    (newOpen,
      match paymentRequest with
      | some _ =>
          [CapCall.update
            { currency := o.currency, displayItems := o.displayItems,
              shippingOptions := o.shippingOptions, total := o.total },
            CapCall.showCall]
      | none => [])
  else
    (newOpen,
      match paymentRequest with
      | some c => if c.hasAbort then [CapCall.abortCall] else []
      | none => [])

/-- C3: a `setOpen` call is a no-op — open state unchanged, no capability
call — whenever the probe value is absent, or the computed target equals the
current open state, or the target equals the capability's live
`isShowing()` answer. -/
theorem setOpen_guard_noop (a : SetStateAction) (openState : Bool)
    (v : Option CanMakePaymentResult) (pr : Option Capability)
    (o : PaymentRequestOptions)
    (h : v = none ∨ resolveAction a openState = openState ∨
      resolveAction a openState = isShowingBool pr) :
    setOpen a openState v pr o = (openState, []) := by
  unfold setOpen
  exact if_pos h

/-- Witness for C3: a concrete redundant toggle (probe resolved, target equals
current state) is silently ignored. -/
theorem setOpen_guard_noop_witness :
    setOpen (SetStateAction.set false) false (some ⟨true, false⟩)
      (some ⟨false, true⟩)
      ⟨"US", "cad", none, none, none, none, none, none, none, ⟨0, ⟨100, "Total", none⟩⟩⟩ =
      (false, []) :=
  setOpen_guard_noop (SetStateAction.set false) false (some ⟨true, false⟩)
    (some ⟨false, true⟩)
    ⟨"US", "cad", none, none, none, none, none, none, none, ⟨0, ⟨100, "Total", none⟩⟩⟩
    (Or.inr (Or.inl rfl))

/-- C4: when the guard passes with a live capability, opening sets the open
cell to `true` and issues `update` with the caller's current (real, not
placeholder) currency, display items, shipping options and total, then `show`,
in that order; closing sets the cell to `false` and issues `abort` alone when
present, nothing when absent. -/
theorem setOpen_transition_calls (a : SetStateAction) (openState : Bool)
    (cmp : CanMakePaymentResult) (c : Capability) (o : PaymentRequestOptions)
    (hne : resolveAction a openState ≠ openState)
    (hshow : resolveAction a openState ≠ isShowingBool (some c)) :
    setOpen a openState (some cmp) (some c) o =
      (resolveAction a openState,
        if resolveAction a openState then
          [CapCall.update
            { currency := o.currency, displayItems := o.displayItems,
              shippingOptions := o.shippingOptions, total := o.total },
            CapCall.showCall]
        else if c.hasAbort then [CapCall.abortCall] else []) := by
  unfold setOpen
  rw [if_neg (by push_neg; exact ⟨Option.some_ne_none cmp, hne, hshow⟩)]
  by_cases hopen : resolveAction a openState = true
  · simp [hopen]
  · simp [hopen]

/-- Witness for C4: with a resolved probe and a non-showing capability,
`setOpen(true)` opens and issues `update` then `show`; from the open state
with a showing capability, `setOpen(false)` closes and issues `abort`. -/
theorem setOpen_transition_calls_witness :
    setOpen (SetStateAction.set true) false (some ⟨true, false⟩)
      (some ⟨false, true⟩)
      ⟨"US", "cad", none, none, none, none, none, none, none, ⟨1, ⟨100, "Total", none⟩⟩⟩ =
      (true,
        [CapCall.update ⟨"cad", none, none, ⟨1, ⟨100, "Total", none⟩⟩⟩,
          CapCall.showCall]) ∧
    setOpen (SetStateAction.set false) true (some ⟨true, false⟩)
      (some ⟨true, true⟩)
      ⟨"US", "cad", none, none, none, none, none, none, none, ⟨1, ⟨100, "Total", none⟩⟩⟩ =
      (false, [CapCall.abortCall]) :=
  ⟨setOpen_transition_calls (SetStateAction.set true) false ⟨true, false⟩
      ⟨false, true⟩
      ⟨"US", "cad", none, none, none, none, none, none, none, ⟨1, ⟨100, "Total", none⟩⟩⟩
      (by decide) (by decide),
    setOpen_transition_calls (SetStateAction.set false) true ⟨true, false⟩
      ⟨true, true⟩
      ⟨"US", "cad", none, none, none, none, none, none, none, ⟨1, ⟨100, "Total", none⟩⟩⟩
      (by decide) (by decide)⟩

/-- A recorded subscription-management call on the capability
(`paymentRequest.on` / `paymentRequest.off`). -/
inductive SubCall where
  | on (eventName : String)
  | off (eventName : String)
deriving DecidableEq

/-- The `useEffect` body of `usePaymentRequest` that listens for the
capability's `cancel` event: subscribes on setup, unsubscribes in the cleanup;
both are no-ops when the handle is absent. Returns (setup calls, cleanup
calls). -/
def cancelSubscriptionEffect : Option Capability → List SubCall × List SubCall
  | some _ => ([SubCall.on "cancel"], [SubCall.off "cancel"])
  | none => ([], [])

/-- The registered `cancel` handler `() => setOpenRaw(false)`: writes the open
cell directly to `false` — no probe check, no `isShowing` check — and issues
no capability call. -/
def cancelHandler (_openState : Bool) : Bool × List CapCall :=
  (false, [])

/-- C8: firing the capability's `cancel` event forces the open cell to `false`
with no capability call, bypassing the toggle's guards (shown by contrast:
with no probe value `setOpen(false)` leaves any state unchanged, while the
cancel handler still forces `false`); the listener is registered on the live
handle at effect setup and deregistered in its cleanup. -/
theorem cancel_event_forces_closed (b : Bool) (pr : Option Capability)
    (o : PaymentRequestOptions) (c : Capability) :
    cancelHandler b = (false, []) ∧
    setOpen (SetStateAction.set false) b none pr o = (b, []) ∧
    cancelSubscriptionEffect (some c) =
      ([SubCall.on "cancel"], [SubCall.off "cancel"]) ∧
    cancelSubscriptionEffect none = ([], []) := by
  refine ⟨rfl, ?_, rfl, rfl⟩
  exact setOpen_guard_noop (SetStateAction.set false) b none pr o (Or.inl rfl)

/-- The denotational behavior of a responder invocation `onEvent(event)`: it
can throw synchronously, resolve a status `s` at time `t` (milliseconds), have
its returned promise reject at time `t`, or never settle. -/
inductive ResponderBehavior (σ : Type) where
  | throwsSync
  | resolves (t : Nat) (s : σ)
  | rejects (t : Nat)
  | never
deriving DecidableEq

/-- The outcome of one run of the multiplexer's async `handler` for one fired
event: the list of completion-callback invocations (time, status), and
whether the handler's own promise rejected (an unhandled rejection at the
boundary). -/
structure HandlerRun (σ : Type) where
  calls : List (Nat × σ)
  rejected : Bool
deriving DecidableEq

/-- The fixed timeout literal in `setTimeout(() => resolve("fail"), 2000)`. -/
def timeoutMs : Nat := 2000

/-- The async `handler` of `usePaymentRequestEventHandler` run on one event:
it awaits `Promise.any([onEvent(event), timeout])` where the timeout promise
fulfills `fallback` at `timeoutMs`, then invokes the completion callback once
with the awaited value. `Promise.any` settles with the first *fulfilled*
promise, so a responder fulfilling by `timeoutMs` wins, a later fulfillment is
discarded in favor of the timeout's `fallback`, and a rejected responder
promise is ignored (the timeout side still fulfills). A synchronous throw
happens while the argument array is built, before `Promise.any`, so it rejects
the handler's promise and no callback runs. -/
def runHandler {σ : Type} (fallback : σ) (b : ResponderBehavior σ) :
    HandlerRun σ :=
  match b with
  | .throwsSync => { calls := [], rejected := true }
  | .resolves t s =>
      if t ≤ timeoutMs then { calls := [(t, s)], rejected := false }
      else { calls := [(timeoutMs, fallback)], rejected := false }
  | .rejects _ => { calls := [(timeoutMs, fallback)], rejected := false }
  | .never => { calls := [(timeoutMs, fallback)], rejected := false }

/-- The handler instantiated at a shipping event: the source's hard-coded
`resolve("fail")` is `UpdateDetailsStatus.fail` there. -/
def runShippingHandler (b : ResponderBehavior UpdateDetailsStatus) :
    HandlerRun UpdateDetailsStatus :=
  runHandler UpdateDetailsStatus.fail b

/-- The handler instantiated at a payment event: the source's hard-coded
`resolve("fail")` is `CompleteStatus.fail` there. -/
def runPaymentHandler (b : ResponderBehavior CompleteStatus) :
    HandlerRun CompleteStatus :=
  runHandler CompleteStatus.fail b

/-- The subscription part of `usePaymentRequestEventHandler`'s effect: with no
responder it returns an empty cleanup immediately (no `on`, no `off`);
otherwise it calls `on` at setup and `off` in the cleanup, each a no-op when
the handle is absent. Returns (setup calls, cleanup calls). -/
def eventSubscriptionEffect {α : Type} (eventName : String)
    (paymentRequest : Option Capability) (onEvent : Option α) :
    List SubCall × List SubCall :=
  match onEvent with
  | none => ([], [])
  | some _ =>
      match paymentRequest with
      | some _ => ([SubCall.on eventName], [SubCall.off eventName])
      | none => ([], [])

/-- The handler the effect leaves installed on the capability: present only
when both a responder and a live handle exist. -/
def installedHandler {α : Type} (paymentRequest : Option Capability)
    (onEvent : Option α) : Option α :=
  match onEvent, paymentRequest with
  | some h, some _ => some h
  | _, _ => none

/-- Completion-callback invocations produced when the capability fires the
event: none when no handler is installed, otherwise one handler run. -/
def fireCompletions {σ : Type} (fallback : σ)
    (installed : Option (ResponderBehavior σ)) : List (Nat × σ) :=
  match installed with
  | none => []
  | some b => (runHandler fallback b).calls

/-- C7: with the responder argument omitted, the multiplexer's effect makes no
subscription — neither `on` nor `off` is called, whatever the event name and
handle — no handler is installed, and firing the event invokes no completion
callback. -/
theorem eventHandler_no_responder_no_subscription (eventName : String)
    (pr : Option Capability) :
    eventSubscriptionEffect eventName pr
        (none : Option (ResponderBehavior UpdateDetailsStatus)) = ([], []) ∧
    installedHandler pr
        (none : Option (ResponderBehavior UpdateDetailsStatus)) = none ∧
    fireCompletions UpdateDetailsStatus.fail
        (installedHandler pr
          (none : Option (ResponderBehavior UpdateDetailsStatus))) = [] := by
  refine ⟨rfl, ?_, ?_⟩ <;> cases pr <;> rfl

/-- C5: the completion path fires exactly once per event: with the responder's
status at its resolution time when it resolves within the 2000 ms timeout, and
with the fallback status `fail` at 2000 ms when it resolves later (the late
resolution is discarded) or never resolves — for shipping and payment events
alike. -/
theorem eventHandler_timeout_fallback (t : Nat) (s : UpdateDetailsStatus)
    (s' : CompleteStatus) :
    timeoutMs = 2000 ∧
    (t ≤ timeoutMs →
      runShippingHandler (.resolves t s) = ⟨[(t, s)], false⟩ ∧
      runPaymentHandler (.resolves t s') = ⟨[(t, s')], false⟩) ∧
    (timeoutMs < t →
      runShippingHandler (.resolves t s) =
        ⟨[(timeoutMs, UpdateDetailsStatus.fail)], false⟩ ∧
      runPaymentHandler (.resolves t s') =
        ⟨[(timeoutMs, CompleteStatus.fail)], false⟩) ∧
    runShippingHandler .never = ⟨[(timeoutMs, UpdateDetailsStatus.fail)], false⟩ ∧
    runPaymentHandler .never = ⟨[(timeoutMs, CompleteStatus.fail)], false⟩ := by
  refine ⟨rfl, fun h => ⟨?_, ?_⟩, fun h => ⟨?_, ?_⟩, rfl, rfl⟩ <;>
    simp [runShippingHandler, runPaymentHandler, runHandler, h, Nat.not_le_of_lt]

/-- Witness for C5: a responder resolving `success` at 100 ms completes with
`success` at 100 ms; one resolving only at 3000 ms is discarded in favor of
`fail` at 2000 ms. -/
theorem eventHandler_timeout_fallback_witness :
    runShippingHandler (.resolves 100 UpdateDetailsStatus.success) =
      ⟨[(100, UpdateDetailsStatus.success)], false⟩ ∧
    runShippingHandler (.resolves 3000 UpdateDetailsStatus.success) =
      ⟨[(2000, UpdateDetailsStatus.fail)], false⟩ :=
  ⟨((eventHandler_timeout_fallback 100 UpdateDetailsStatus.success
      CompleteStatus.success).2.1 (by decide)).1,
    ((eventHandler_timeout_fallback 3000 UpdateDetailsStatus.success
      CompleteStatus.success).2.2.1 (by decide)).1⟩

/-- C6 counterexample: a responder whose promise rejects at 10 ms — well
before the 2000 ms timeout — does *not* propagate out of the handler
(`Promise.any` ignores individual rejections while another input can still
fulfill), and the completion callback *is* invoked, with the substituted
fallback status `fail` at 2000 ms. -/
theorem eventHandler_rejection_cex :
    runShippingHandler (.rejects 10) =
      ⟨[(2000, UpdateDetailsStatus.fail)], false⟩ ∧
    (runShippingHandler (.rejects 10)).rejected = false ∧
    (runShippingHandler (.rejects 10)).calls ≠ [] := by
  refine ⟨rfl, rfl, ?_⟩
  decide

/-- C6 (amended): a responder that throws synchronously rejects the async
handler's promise uncaught (no completion callback); but a responder whose
returned promise rejects is swallowed by `Promise.any` — the rejection never
propagates, and the completion callback fires with the fallback `fail` at the
2000 ms timeout — for shipping and payment events alike. -/
theorem eventHandler_rejection_semantics (t : Nat) :
    runShippingHandler .throwsSync = ⟨[], true⟩ ∧
    runPaymentHandler .throwsSync = ⟨[], true⟩ ∧
    runShippingHandler (.rejects t) =
      ⟨[(timeoutMs, UpdateDetailsStatus.fail)], false⟩ ∧
    runPaymentHandler (.rejects t) =
      ⟨[(timeoutMs, CompleteStatus.fail)], false⟩ :=
  ⟨rfl, rfl, rfl, rfl⟩

/-- The dependency array of the `useMemo` that constructs the capability in
`usePaymentRequest`: `[country, disableWallets, requestPayerEmail,
requestPayerName, requestPayerPhone, requestShipping, stripe]` — the
identity-affecting inputs only. React compares each entry against the previous
render's with `Object.is`, modelled by equality on these fields. -/
structure MemoDeps where
  country : String
  disableWallets : Option (Ref (List String))
  requestPayerEmail : Option Bool
  requestPayerName : Option Bool
  requestPayerPhone : Option Bool
  requestShipping : Option Bool
  stripe : Option (Ref Unit)
deriving DecidableEq

/-- The memo dependencies of one render. -/
def memoDeps (r : RenderInput) : MemoDeps :=
  { country := r.options.country
    disableWallets := r.options.disableWallets
    requestPayerEmail := r.options.requestPayerEmail
    requestPayerName := r.options.requestPayerName
    requestPayerPhone := r.options.requestPayerPhone
    requestShipping := r.options.requestShipping
    stripe := r.stripe }

/-- Constructor invocations on a render whose memo body runs:
`stripe?.paymentRequest(...)` short-circuits, so the constructor is invoked
exactly when the factory is present. -/
def renderInvokes (r : RenderInput) : Nat :=
  if r.stripe.isSome then 1 else 0

/-- Constructor invocations contributed by a re-render: the memo body reruns
exactly when the dependency array changed from the previous render. -/
def stepInvokes (prev cur : RenderInput) : Nat :=
  if memoDeps cur = memoDeps prev then 0 else renderInvokes cur

/-- Constructor invocations over the re-renders in a list, given the previous
render. -/
def countAux (prev : RenderInput) : List RenderInput → Nat
  | [] => 0
  | r :: rest => stepInvokes prev r + countAux r rest

/-- Total number of `stripe.paymentRequest` invocations over a render
sequence: the mount render always runs the memo body, and each re-render runs
it exactly when the dependencies changed. -/
def constructorCount (first : RenderInput) (rest : List RenderInput) : Nat :=
  renderInvokes first + countAux first rest

theorem countAux_append (l : List RenderInput) (p x : RenderInput) :
    countAux p (l ++ [x]) = countAux p l + stepInvokes (l.getLastD p) x := by
  induction l generalizing p with
  | nil => simp [countAux]
  | cons r rest ih =>
      rw [List.cons_append, countAux, countAux, ih r, List.getLastD_cons]
      omega

/-- C1 (amended): on any render sequence, changing only updatable parameters
(currency, displayItems, shippingOptions, total) never invokes the capability
constructor again; changing the identity-affecting dependencies — even to a
value deep-equal to the previous one — invokes it exactly one more time,
provided the stripe factory is present on the new render (with an absent
factory the memo recomputes but `stripe?.paymentRequest` short-circuits and
the constructor is not invoked). -/
theorem usePaymentRequest_memo_recreation (first : RenderInput)
    (rest : List RenderInput) :
    (∀ (c : String) (di : Option (Ref (List DisplayItem)))
        (so : Option (Ref (List ShippingOptionItem))) (t : Ref TotalSpec),
      constructorCount first (rest ++
        [⟨(rest.getLastD first).stripe,
          setUpdatables (rest.getLastD first).options c di so t⟩]) =
        constructorCount first rest) ∧
    (∀ next : RenderInput,
      memoDeps next ≠ memoDeps (rest.getLastD first) →
      next.stripe.isSome →
      constructorCount first (rest ++ [next]) =
        constructorCount first rest + 1) := by
  constructor
  · intro c di so t
    rw [constructorCount, constructorCount, countAux_append]
    have h : memoDeps
        (⟨(rest.getLastD first).stripe,
          setUpdatables (rest.getLastD first).options c di so t⟩ : RenderInput) =
        memoDeps (rest.getLastD first) := rfl
    simp only [stepInvokes, if_pos h]
    omega
  · intro next hne hsome
    rw [constructorCount, constructorCount, countAux_append]
    simp only [stepInvokes, if_neg hne, renderInvokes, if_pos hsome]
    omega

/-- A concrete options object for the C1 counterexample. -/
def cexOptions : PaymentRequestOptions :=
  { country := "US", currency := "cad", disableWallets := none
    displayItems := some ⟨1, [⟨75, "An Item"⟩]⟩
    requestPayerEmail := none, requestPayerName := none
    requestPayerPhone := none, requestShipping := none
    shippingOptions := none, total := ⟨2, ⟨100, "Total", none⟩⟩ }

/-- Mount render of the counterexample: live stripe factory. -/
def cexFirst : RenderInput := ⟨some ⟨0, ()⟩, cexOptions⟩

/-- Re-render of the counterexample: the factory reference changed (to
absent), an identity-affecting change. -/
def cexNext : RenderInput := ⟨none, cexOptions⟩

/-- C1 counterexample: changing the stripe factory reference (an
identity-affecting parameter) from a live factory to an absent one changes the
memo dependencies, yet the capability constructor is *not* invoked one more
time — the count stays at 1 because `stripe?.paymentRequest` short-circuits. -/
theorem usePaymentRequest_memo_recreation_cex :
    memoDeps cexNext ≠ memoDeps cexFirst ∧
    constructorCount cexFirst [cexNext] = 1 ∧
    constructorCount cexFirst [] = 1 ∧
    ¬ constructorCount cexFirst [cexNext] = constructorCount cexFirst [] + 1 := by
  refine ⟨by decide, by decide, by decide, by decide⟩

/-- A concrete options object for the C1 witness, with a referenced
`disableWallets` array. -/
def witOptions : PaymentRequestOptions :=
  { country := "US", currency := "cad", disableWallets := some ⟨5, ["googlePay"]⟩
    displayItems := none, requestPayerEmail := some false
    requestPayerName := none, requestPayerPhone := none, requestShipping := none
    shippingOptions := none, total := ⟨2, ⟨100, "Total", none⟩⟩ }

/-- Mount render of the C1 witness. -/
def witFirst : RenderInput := ⟨some ⟨0, ()⟩, witOptions⟩

/-- Re-render of the C1 witness: `disableWallets` replaced by a deep-equal
array under a fresh reference — an identity-affecting, reference-only
change. -/
def witNext : RenderInput :=
  ⟨some ⟨0, ()⟩, { witOptions with disableWallets := some ⟨6, ["googlePay"]⟩ }⟩

/-- Witness for C1: replacing every updatable option leaves the constructor
count unchanged, while replacing the `disableWallets` array by a deep-equal
fresh reference (factory present and unchanged) increments it by exactly
one. -/
theorem usePaymentRequest_memo_recreation_witness :
    constructorCount witFirst
      [⟨witFirst.stripe,
        setUpdatables witFirst.options "eur" none none ⟨9, ⟨5, "T", none⟩⟩⟩] =
      constructorCount witFirst [] ∧
    witNext.options.disableWallets.map Ref.val =
      witFirst.options.disableWallets.map Ref.val ∧
    witNext.stripe = witFirst.stripe ∧
    constructorCount witFirst [witNext] = constructorCount witFirst [] + 1 :=
  ⟨(usePaymentRequest_memo_recreation witFirst []).1 "eur" none none
      ⟨9, ⟨5, "T", none⟩⟩,
    by decide, by decide,
    (usePaymentRequest_memo_recreation witFirst []).2 witNext (by decide)
      (by decide)⟩
